import Mathlib

/-!
Verification of the Finch robot device facade (finch.py).

Each device method is embedded as a pure Lean function. A method that only
writes a command is embedded as a function returning the frame it sends
(the opcode byte followed by the payload bytes, as a List Nat); a method that
also reads a reply takes the reply data as an Option (List Nat) parameter
(none models connection.receive() returning None). Python floats are
modelled by the exact rationals the source expressions denote; Python
arbitrary-precision ints are Int. The bit masks in buzzer,
`(m & 0xff00) >> 8` and `m & 0x00ff`, are translated to the arithmetic they
compute on two's-complement integers: the high and low byte of m mod 2^16.
-/

namespace Finch

/-- Python int() truncation toward zero of an exact rational. -/
def pyInt (q : ℚ) : Int := q.num.tdiv q.den

/-- High byte of the low 16 bits: Python (m & 0xff00) >> 8 on an
arbitrary-precision two's-complement integer. -/
def byteHi (m : Int) : Nat := (m % 65536).toNat / 256

/-- Low byte: Python m & 0x00ff. -/
def byteLo (m : Int) : Nat := (m % 256).toNat

/-- Finch.temperature, lines 112-137 of finch.py. The reply data is the raw
byte list from connection.receive() (none when no reply). The Bool records
whether the unavailable-unit message was printed; the Option carries the
returned value (none models the implicit return None when data is None).
Reply access data[0] is modelled with getD; the T reply is one byte. -/
def temperature (data : Option (List Nat)) (unit : String) : Option ℚ × Bool :=
  match data with
  | none => (none, false)
  | some d =>
    let celsius : ℚ := ((d.getD 0 0 : ℚ) - 127) / 2.4 + 25
    let fahrenheit : ℚ := celsius * 9 / 5 + 32
    let kelvin : ℚ := celsius + 273.15
    if unit ≠ "celsius" then
      if unit = "Fahrenheit" ∨ unit = "fahrenheit" then (some fahrenheit, false)
      else if unit = "Kelvin" ∨ unit = "kelvin" then (some kelvin, false)
      else (some celsius, true)
    else
      (some celsius, false)

/-- Finch.light, lines 86-96: two reply bytes scaled by 255.0. -/
def light (data : Option (List Nat)) : Option (ℚ × ℚ) :=
  match data with
  | none => none
  | some d => some ((d.getD 0 0 : ℚ) / 255.0, (d.getD 1 0 : ℚ) / 255.0)

/-- Finch.obstacle, lines 99-109: two reply bytes tested against 0. -/
def obstacle (data : Option (List Nat)) : Option (Bool × Bool) :=
  match data with
  | none => none
  | some d => some (d.getD 0 0 != 0, d.getD 1 0 != 0)

/-- Finch.convert_raw_accel, lines 140-145: raw byte to G units. -/
def convert_raw_accel (a : Nat) : ℚ :=
  if a > 31 then ((a : ℚ) - 64) * 1.6 / 32.0 else (a : ℚ) * 1.6 / 32.0

/-- Finch.acceleration, lines 148-169: reply bytes 1, 2, 3 converted to G
units, tap and shake from bits 0x20 and 0x80 of reply byte 4. The A reply
is five bytes; access data[i] is modelled with getD. -/
def acceleration (data : Option (List Nat)) :
    Option (ℚ × ℚ × ℚ × Bool × Bool) :=
  match data with
  | none => none
  | some d =>
    some (convert_raw_accel (d.getD 1 0), convert_raw_accel (d.getD 2 0),
          convert_raw_accel (d.getD 3 0),
          d.getD 4 0 &&& 0x20 != 0, d.getD 4 0 &&& 0x80 != 0)

/-- A Python argument value passed to led(): an int or a string (modelled as
its character list). -/
inductive PyVal where
  | int (n : Int)
  | str (s : List Char)
  deriving DecidableEq

/-- Observable outcome of a call to led(): a frame written to the
connection, the usage message printed with None returned (source lines
49-51 and 53-55), or a Python exception escaping (IndexError on an empty
argument list, ValueError from int()). -/
inductive LedOutcome where
  | sent (frame : List Nat)
  | warned
  | raised
  deriving DecidableEq

/-- The characters str.strip() removes: the full CPython Unicode whitespace
set (0x09-0x0D, 0x1C-0x1F, space, NEL 0x85, NBSP 0xA0, Ogham space mark
0x1680, 0x2000-0x200A, line and paragraph separators 0x2028/0x2029, narrow
NBSP 0x202F, medium mathematical space 0x205F, ideographic space 0x3000). -/
def isPySpace (c : Char) : Bool :=
  decide ((9 ≤ c.toNat ∧ c.toNat ≤ 13) ∨ (28 ≤ c.toNat ∧ c.toNat ≤ 31)
    ∨ c.toNat = 32 ∨ c.toNat = 0x85 ∨ c.toNat = 0xa0 ∨ c.toNat = 0x1680
    ∨ (0x2000 ≤ c.toNat ∧ c.toNat ≤ 0x200a) ∨ c.toNat = 0x2028
    ∨ c.toNat = 0x2029 ∨ c.toNat = 0x202f ∨ c.toNat = 0x205f
    ∨ c.toNat = 0x3000)

/-- Python str.strip(): drop leading and trailing whitespace. -/
def pyStrip (cs : List Char) : List Char :=
  ((cs.dropWhile isPySpace).reverse.dropWhile isPySpace).reverse

/-- Hexadecimal digit values accepted by int(., 16). -/
def hexPairs : List (Char × Nat) :=
  [('0', 0), ('1', 1), ('2', 2), ('3', 3), ('4', 4), ('5', 5), ('6', 6),
   ('7', 7), ('8', 8), ('9', 9), ('a', 10), ('b', 11), ('c', 12), ('d', 13),
   ('e', 14), ('f', 15), ('A', 10), ('B', 11), ('C', 12), ('D', 13),
   ('E', 14), ('F', 15)]

def hexVal (c : Char) : Option Nat := hexPairs.lookup c

/-- Python int(s, 16) for the two-character slices color[1:3], color[3:5],
color[5:7], exact on slices of two hex digits (the entire #RRGGBB domain).
Caution: Python additionally tolerates a sign or whitespace next to a
single digit inside the slice - int with the slice of a plus sign and the
letter a is 10, a minus sign gives a negative value - so the source accepts
some strings outside the #RRGGBB form that this model maps to none. No
theorem below evaluates hex2 outside its exact two-hex-digit domain. -/
def hex2 (a b : Char) : Option Nat :=
  match hexVal a, hexVal b with
  | some x, some y => some (16 * x + y)
  | _, _ => none

/-- Digit-sequence value, for Python int() applied to a decimal string. -/
def digitsVal (ds : List Char) : Option Nat :=
  if ds ≠ [] ∧ ds.all Char.isDigit then
    some (ds.foldl (fun acc c => 10 * acc + (c.toNat - 48)) 0)
  else none

/-- Python int() on a string: optional sign and ASCII decimal digits,
surrounding whitespace ignored; anything else raises ValueError (none).
Exact on that domain. Caution: Python additionally accepts underscores
between digits and non-ASCII decimal digits, so the source converts some
strings this model maps to none. No theorem below evaluates this parser on
a string at all (the RGB theorems pass ints); it is present only so led is
defined on every well-typed argument list. -/
def pyStrToInt (s : List Char) : Option Int :=
  match pyStrip s with
  | '-' :: ds => (digitsVal ds).map (fun n => -(n : Int))
  | '+' :: ds => (digitsVal ds).map (fun n => (n : Int))
  | ds => (digitsVal ds).map (fun n => (n : Int))

/-- Python int(x) for an argument of led(): identity on ints, string
parsing on strings. -/
def pyToInt : PyVal → Option Int
  | .int n => some n
  | .str s => pyStrToInt s

/-- The color_list dictionary of led(), lines 28-31; lookup of args[0]
against its keys (an int argument matches no key). -/
def colorLookup : PyVal → Option (Nat × Nat × Nat)
  | .str ['r', 'e', 'd'] => some (255, 0, 0)
  | .str ['y', 'e', 'l', 'l', 'o', 'w'] => some (255, 255, 0)
  | .str ['g', 'r', 'e', 'e', 'n'] => some (0, 255, 0)
  | .str ['p', 'u', 'r', 'p', 'l', 'e'] => some (128, 0, 128)
  | .str ['b', 'l', 'u', 'e'] => some (0, 0, 255)
  | .str ['g', 'r', 'e', 'y'] => some (128, 128, 128)
  | .str ['w', 'h', 'i', 't', 'e'] => some (255, 255, 255)
  | .str ['b', 'l', 'a', 'c', 'k'] => some (0, 0, 0)
  | .str ['p', 'i', 'n', 'k'] => some (255, 192, 203)
  | .str ['o', 'r', 'a', 'n', 'g', 'e'] => some (255, 165, 0)
  | .str ['b', 'r', 'o', 'w', 'n'] => some (165, 42, 42)
  | _ => none

/-- The single-string branch of led(), lines 41-51: strip the argument,
check for the 7-character hash-prefixed form, then parse the three
two-character hex slices; any other shape prints the usage message and
returns None. -/
def ledHexBranch (s : List Char) : LedOutcome :=
  if (pyStrip s).length = 7 ∧ (pyStrip s).headD ' ' = '#' then
    match hex2 ((pyStrip s).getD 1 ' ') ((pyStrip s).getD 2 ' '),
          hex2 ((pyStrip s).getD 3 ' ') ((pyStrip s).getD 4 ' '),
          hex2 ((pyStrip s).getD 5 ' ') ((pyStrip s).getD 6 ' ') with
    | some r, some g, some b => .sent [79, r, g, b]
    | _, _, _ => .raised
  else .warned

/-- Finch.led, lines 20-58. Branches in source order: the color-name lookup
on args[0], then the three-argument RGB form (int(x) % 256 on each), then
the single string argument handled by ledHexBranch; every other shape
prints the usage message and returns None (LedOutcome.warned). Opcode byte
79 is b'O'. -/
def led (args : List PyVal) : LedOutcome :=
  match args with
  | [] => .raised
  | a0 :: rest =>
    match colorLookup a0 with
    | some (r, g, b) => .sent [79, r % 256, g % 256, b % 256]
    | none =>
      if (a0 :: rest).length = 3 then
        match (a0 :: rest).mapM pyToInt with
        | some ns => .sent (79 :: ns.map (fun n => (n % 256).toNat))
        | none => .raised
      else
        match a0, rest with
        | .str s, [] => ledHexBranch s
        | _, _ => .warned

/-- Finch.buzzer, lines 61-70: millisec = int(duration * 1000); frame is
opcode 66 (b'B') followed by the high and low byte of millisec and of
frequency. -/
def buzzer (duration : ℚ) (frequency : Int) : List Nat :=
  let millisec : Int := pyInt (duration * 1000)
  [66, byteHi millisec, byteLo millisec, byteHi frequency, byteLo frequency]

/-- Finch.buzzer_with_delay, lines 73-83: same frame construction repeated
verbatim in the source, followed by time.sleep(duration*1.05). The second
component records the sleep length; nothing else is written. -/
def buzzer_with_delay (duration : ℚ) (frequency : Int) : List Nat × ℚ :=
  let millisec : Int := pyInt (duration * 1000)
  ([66, byteHi millisec, byteLo millisec, byteHi frequency, byteLo frequency],
   duration * 1.05)

/-- Finch.wheels, lines 172-184: direction bytes from the sign, speed bytes
min(abs(int(v * 255)), 255), opcode 77 (b'M'). No reply is read. -/
def wheels (left right : ℚ) : List Nat :=
  let dir_left : Nat := if left < 0 then 1 else 0
  let dir_right : Nat := if right < 0 then 1 else 0
  let l : Nat := min (pyInt (left * 255)).natAbs 255
  let r : Nat := min (pyInt (right * 255)).natAbs 255
  [77, dir_left, l, dir_right, r]

/-- An argument list for led() that fails every structural check of the
source: nonempty (so args[0] exists), first argument not a color name,
argument count not 3, and a single string argument does not strip to a
7-character string starting with the hash character. These are exactly the
inputs that reach one of the two print-and-return branches of lines 49-55;
they are decided by the dictionary lookup and str.strip() alone, before
any call to int(). -/
def LedWarnInput (args : List PyVal) : Prop :=
  args ≠ [] ∧
  (∀ a0, args.head? = some a0 → colorLookup a0 = none) ∧
  args.length ≠ 3 ∧
  (∀ s, args = [PyVal.str s] →
    ¬((pyStrip s).length = 7 ∧ (pyStrip s).headD ' ' = '#'))

end Finch

/-- pyInt is the identity on integers. -/
theorem Finch.pyInt_intCast (n : ℤ) : Finch.pyInt (n : ℚ) = n := by
  simp [Finch.pyInt, Rat.num_intCast, Rat.den_intCast, Int.tdiv_one]

/-- C1: temperature() computes celsius = (raw - 127)/2.4 + 25 (so raw = 127
gives exactly 25), and the Fahrenheit and Kelvin results for both spellings
of those units equal (celsius*9/5)+32 and celsius+273.15 computed from that
same celsius value. -/
theorem Finch.temperature_conversions (raw : Nat) :
    Finch.temperature (some [raw]) "celsius"
        = (some (((raw : ℚ) - 127) / 2.4 + 25), false)
    ∧ Finch.temperature (some [raw]) "fahrenheit"
        = (some ((((raw : ℚ) - 127) / 2.4 + 25) * 9 / 5 + 32), false)
    ∧ Finch.temperature (some [raw]) "Fahrenheit"
        = (some ((((raw : ℚ) - 127) / 2.4 + 25) * 9 / 5 + 32), false)
    ∧ Finch.temperature (some [raw]) "kelvin"
        = (some ((((raw : ℚ) - 127) / 2.4 + 25) + 273.15), false)
    ∧ Finch.temperature (some [raw]) "Kelvin"
        = (some ((((raw : ℚ) - 127) / 2.4 + 25) + 273.15), false)
    ∧ Finch.temperature (some [127]) "celsius" = (some 25, false) := by
  refine ⟨?_, ?_, ?_, ?_, ?_, ?_⟩ <;> simp [Finch.temperature]

/-- C2: acceleration() returns the conversions of reply bytes 1, 2, 3 and the
bit flags 0x20 (tap) and 0x80 (shake) of reply byte 4; the raw-to-G
conversion is (a - 64)*1.6/32.0 for a > 31 and a*1.6/32.0 otherwise, so
raw 0 gives 0.0 G, raw 31 gives 1.55 G and raw 32 gives -1.6 G. -/
theorem Finch.acceleration_decode (d0 d1 d2 d3 d4 : Nat) :
    Finch.acceleration (some [d0, d1, d2, d3, d4])
      = some (Finch.convert_raw_accel d1, Finch.convert_raw_accel d2,
              Finch.convert_raw_accel d3, d4.testBit 5, d4.testBit 7)
    ∧ (∀ a : Nat, Finch.convert_raw_accel a
        = if a > 31 then ((a : ℚ) - 64) * 1.6 / 32.0 else (a : ℚ) * 1.6 / 32.0)
    ∧ Finch.convert_raw_accel 0 = 0
    ∧ Finch.convert_raw_accel 31 = 1.55
    ∧ Finch.convert_raw_accel 32 = -1.6 := by
  refine ⟨?_, fun a => rfl, by norm_num [Finch.convert_raw_accel],
    by norm_num [Finch.convert_raw_accel], by norm_num [Finch.convert_raw_accel]⟩
  have h5 : d4 &&& 0x20 = (d4.testBit 5).toNat * 2 ^ 5 := by
    simpa using Nat.and_two_pow d4 5
  have h7 : d4 &&& 0x80 = (d4.testBit 7).toNat * 2 ^ 7 := by
    simpa using Nat.and_two_pow d4 7
  simp only [Finch.acceleration, List.getD]
  cases hb5 : d4.testBit 5 <;> cases hb7 : d4.testBit 7 <;>
    simp [h5, h7, hb5, hb7]

/-- C9: when the connection yields no reply data, every sensor query -
light, obstacle, temperature (for any unit) and acceleration - returns the
no-reading marker none, never a fabricated sensor value. -/
theorem Finch.sensors_no_reading :
    Finch.light none = none
    ∧ Finch.obstacle none = none
    ∧ (∀ unit : String, Finch.temperature none unit = (none, false))
    ∧ Finch.acceleration none = none :=
  ⟨rfl, rfl, fun _ => rfl, rfl⟩

/-- C10: for any unit string other than celsius, fahrenheit/Fahrenheit and
kelvin/Kelvin, temperature() prints the unavailable-unit warning and still
returns the Celsius value rather than failing or returning nothing. -/
theorem Finch.temperature_unknown_unit (raw : Nat) (unit : String)
    (h1 : unit ≠ "celsius") (h2 : unit ≠ "fahrenheit") (h3 : unit ≠ "Fahrenheit")
    (h4 : unit ≠ "kelvin") (h5 : unit ≠ "Kelvin") :
    Finch.temperature (some [raw]) unit
      = (some (((raw : ℚ) - 127) / 2.4 + 25), true) := by
  simp [Finch.temperature, h1, h2, h3, h4, h5]

/-- Witness for C10 at raw = 127 and the unrecognized unit "parsec". -/
theorem Finch.temperature_unknown_unit_witness :
    Finch.temperature (some [127]) "parsec" = (some 25, true) := by
  have h := Finch.temperature_unknown_unit 127 "parsec"
    (by decide) (by decide) (by decide) (by decide) (by decide)
  rw [h]; norm_num

namespace Finch

/-- A key that List.lookup resolves is a member of the association list. -/
theorem mem_of_lookup_eq_some {l : List (Char × Nat)} {c : Char} {v : Nat}
    (h : l.lookup c = some v) : (c, v) ∈ l := by
  induction l with
  | nil => simp [List.lookup] at h
  | cons p t ih =>
    obtain ⟨k, b⟩ := p
    simp only [List.lookup] at h
    split at h
    · next heq =>
      cases h
      have : c = k := by simpa using heq
      subst this
      exact List.mem_cons_self _ _
    · exact List.mem_cons_of_mem _ (ih h)

/-- A character with a hex value is not stripped whitespace, and its value
is at most 15. -/
theorem hexVal_facts {c : Char} {v : Nat} (h : hexVal c = some v) :
    isPySpace c = false ∧ v ≤ 15 := by
  have hm := mem_of_lookup_eq_some h
  have hall : ∀ p ∈ hexPairs, isPySpace p.1 = false ∧ p.2 ≤ 15 := by decide
  exact hall _ hm

end Finch

/-- C4: for integers r, g, b each in [0, 255], led(r, g, b) sends exactly
the frame with opcode O followed by the payload [r, g, b]: the triple
round-trips identically through the encoder. -/
theorem Finch.led_rgb_frame (r g b : Int)
    (hr1 : 0 ≤ r) (hr2 : r ≤ 255) (hg1 : 0 ≤ g) (hg2 : g ≤ 255)
    (hb1 : 0 ≤ b) (hb2 : b ≤ 255) :
    Finch.led [.int r, .int g, .int b]
      = .sent [79, r.toNat, g.toNat, b.toNat] := by
  have base : Finch.led [.int r, .int g, .int b]
      = .sent [79, (r % 256).toNat, (g % 256).toNat, (b % 256).toNat] := rfl
  rw [base, Int.emod_eq_of_lt hr1 (by omega), Int.emod_eq_of_lt hg1 (by omega),
    Int.emod_eq_of_lt hb1 (by omega)]

/-- Witness for C4 at the triple (10, 20, 30). -/
theorem Finch.led_rgb_frame_witness :
    Finch.led [.int 10, .int 20, .int 30] = .sent [79, 10, 20, 30] := by
  have h := Finch.led_rgb_frame 10 20 30
    (by decide) (by decide) (by decide) (by decide) (by decide) (by decide)
  exact h.trans (by decide)

/-- C6: for any hex-triplet string made of a hash and six hex digits with
pair values r = 16*v1+v2, g = 16*v3+v4, b = 16*v5+v6, led on the string
sends exactly the same O frame as led on the three raw byte values. -/
theorem Finch.led_hex_matches_rgb (c1 c2 c3 c4 c5 c6 : Char)
    (v1 v2 v3 v4 v5 v6 : Nat)
    (h1 : Finch.hexVal c1 = some v1) (h2 : Finch.hexVal c2 = some v2)
    (h3 : Finch.hexVal c3 = some v3) (h4 : Finch.hexVal c4 = some v4)
    (h5 : Finch.hexVal c5 = some v5) (h6 : Finch.hexVal c6 = some v6) :
    Finch.led [.str ['#', c1, c2, c3, c4, c5, c6]]
      = Finch.led [.int (16 * (v1 : Int) + v2), .int (16 * (v3 : Int) + v4),
                   .int (16 * (v5 : Int) + v6)]
    ∧ Finch.led [.str ['#', c1, c2, c3, c4, c5, c6]]
      = .sent [79, 16 * v1 + v2, 16 * v3 + v4, 16 * v5 + v6] := by
  have w0 : Finch.isPySpace '#' = false := by decide
  have w6 : Finch.isPySpace c6 = false := (Finch.hexVal_facts h6).1
  have hstrip : Finch.pyStrip ['#', c1, c2, c3, c4, c5, c6]
      = ['#', c1, c2, c3, c4, c5, c6] := by
    simp [Finch.pyStrip, w0, w6, List.dropWhile_cons]
  have lhs : Finch.led [.str ['#', c1, c2, c3, c4, c5, c6]]
      = .sent [79, 16 * v1 + v2, 16 * v3 + v4, 16 * v5 + v6] := by
    have e : Finch.led [.str ['#', c1, c2, c3, c4, c5, c6]]
        = Finch.ledHexBranch ['#', c1, c2, c3, c4, c5, c6] := rfl
    rw [e]
    simp only [Finch.ledHexBranch, hstrip]
    simp [Finch.hex2, h1, h2, h3, h4, h5, h6, List.getD]
  have b1 := (Finch.hexVal_facts h1).2
  have b2 := (Finch.hexVal_facts h2).2
  have b3 := (Finch.hexVal_facts h3).2
  have b4 := (Finch.hexVal_facts h4).2
  have b5 := (Finch.hexVal_facts h5).2
  have b6 := (Finch.hexVal_facts h6).2
  have rhs : Finch.led [.int (16 * (v1 : Int) + v2), .int (16 * (v3 : Int) + v4),
      .int (16 * (v5 : Int) + v6)]
      = .sent [79, 16 * v1 + v2, 16 * v3 + v4, 16 * v5 + v6] := by
    have base : Finch.led [.int (16 * (v1 : Int) + v2),
        .int (16 * (v3 : Int) + v4), .int (16 * (v5 : Int) + v6)]
        = .sent [79, ((16 * (v1 : Int) + v2) % 256).toNat,
                 ((16 * (v3 : Int) + v4) % 256).toNat,
                 ((16 * (v5 : Int) + v6) % 256).toNat] := rfl
    rw [base]
    have e1 : ((16 * (v1 : Int) + v2) % 256).toNat = 16 * v1 + v2 := by omega
    have e3 : ((16 * (v3 : Int) + v4) % 256).toNat = 16 * v3 + v4 := by omega
    have e5 : ((16 * (v5 : Int) + v6) % 256).toNat = 16 * v5 + v6 := by omega
    rw [e1, e3, e5]
  exact ⟨lhs.trans rhs.symm, lhs⟩

/-- Witness for C6 at the hex string #00ff8b against the triple
(0, 255, 139). -/
theorem Finch.led_hex_matches_rgb_witness :
    Finch.led [.str ['#', '0', '0', 'f', 'f', '8', 'b']]
      = Finch.led [.int 0, .int 255, .int 139]
    ∧ Finch.led [.str ['#', '0', '0', 'f', 'f', '8', 'b']]
      = .sent [79, 0, 255, 139] := by
  have h := Finch.led_hex_matches_rgb '0' '0' 'f' 'f' '8' 'b' 0 0 15 15 8 11
    (by decide) (by decide) (by decide) (by decide) (by decide) (by decide)
  exact ⟨h.1.trans (by norm_num), h.2.trans (by norm_num)⟩

/-- C5: buzzer(duration, frequency) writes opcode B and exactly four payload
bytes: the two big-endian bytes of int(duration*1000) mod 2^16 followed by
the two big-endian bytes of frequency mod 2^16; each byte is below 256 and
the pairs reassemble to the masked values, so inputs of 65536 or more are
reduced modulo 2^16. -/
theorem Finch.buzzer_frame (duration : ℚ) (frequency : Int) :
    Finch.buzzer duration frequency
      = [66, Finch.byteHi (Finch.pyInt (duration * 1000)),
         Finch.byteLo (Finch.pyInt (duration * 1000)),
         Finch.byteHi frequency, Finch.byteLo frequency]
    ∧ (∀ m : Int, (256 * Finch.byteHi m + Finch.byteLo m : Int) = m % 65536
        ∧ Finch.byteHi m < 256 ∧ Finch.byteLo m < 256) := by
  refine ⟨rfl, fun m => ?_⟩
  unfold Finch.byteHi Finch.byteLo
  omega

/-- C7: buzzer_with_delay writes exactly the same B frame as buzzer for
every duration and frequency, and its only extra behavior is the client-side
sleep of duration times 1.05 after the command, during which nothing further
is written. -/
theorem Finch.buzzer_with_delay_same_frame (duration : ℚ) (frequency : Int) :
    (Finch.buzzer_with_delay duration frequency).1
        = Finch.buzzer duration frequency
    ∧ (Finch.buzzer_with_delay duration frequency).2 = duration * 1.05 :=
  ⟨rfl, rfl⟩

/-- C3: for left and right in [-1, 1], wheels writes exactly the five-byte
frame M, dir_left, speed_left, dir_right, speed_right, with each direction
byte 1 exactly when the value is negative and each speed byte
min(abs(int(v*255)), 255), which lies in [0, 255]. -/
theorem Finch.wheels_frame (left right : ℚ)
    (hl1 : -1 ≤ left) (hl2 : left ≤ 1) (hr1 : -1 ≤ right) (hr2 : right ≤ 1) :
    Finch.wheels left right
      = [77, if left < 0 then 1 else 0,
         min (Finch.pyInt (left * 255)).natAbs 255,
         if right < 0 then 1 else 0,
         min (Finch.pyInt (right * 255)).natAbs 255]
    ∧ min (Finch.pyInt (left * 255)).natAbs 255 ≤ 255
    ∧ min (Finch.pyInt (right * 255)).natAbs 255 ≤ 255 :=
  ⟨rfl, min_le_right _ _, min_le_right _ _⟩

/-- Witness for C3: the scenario frame, left = -128/255 and right = 200/255
produce exactly the frame [M, 1, 128, 0, 200]. -/
theorem Finch.wheels_frame_witness :
    Finch.wheels (-(128 / 255)) (200 / 255) = [77, 1, 128, 0, 200] := by
  have h := Finch.wheels_frame (-(128 / 255)) (200 / 255)
    (by norm_num) (by norm_num) (by norm_num) (by norm_num)
  rw [h.1]
  have e1 : (-(128 / 255) : ℚ) * 255 = ((-128 : ℤ) : ℚ) := by norm_num
  have e2 : ((200 / 255) : ℚ) * 255 = ((200 : ℤ) : ℚ) := by norm_num
  rw [e1, e2, Finch.pyInt_intCast, Finch.pyInt_intCast]
  norm_num

/-- C8 (amended): for every LED argument list that fails the structural
checks of led() - the first argument is not a known color name, the
argument count is not 3, and a single string argument does not strip to a
7-character hash-prefixed string - led() writes nothing on the connection
and reports the failure only by printing the usage message and returning
None, never as an explicit InvalidCommand error value. (This covers
exactly the rejection paths the source has; malformed inputs outside this
set are not all rejected - via int()'s tolerance of signs, whitespace and
underscores some of them send a frame, others raise a builtin exception.) -/
theorem Finch.led_warned_no_send (args : List Finch.PyVal)
    (h : Finch.LedWarnInput args) :
    Finch.led args = .warned ∧ ∀ fr : List Nat, Finch.led args ≠ .sent fr := by
  obtain ⟨hne, hc, hlen, hs⟩ := h
  have main : Finch.led args = .warned := by
    cases args with
    | nil => exact absurd rfl hne
    | cons a0 rest =>
      have hc0 : Finch.colorLookup a0 = none := hc a0 rfl
      rw [Finch.led.eq_def]
      simp only [hc0]
      rw [if_neg hlen]
      split
      · next s =>
        unfold Finch.ledHexBranch
        exact if_neg (hs s rfl)
      · rfl
  refine ⟨main, fun fr hco => ?_⟩
  rw [main] at hco
  exact Finch.LedOutcome.noConfusion hco

/-- Witness for C8 at the malformed input "teal": it fails the structural
checks, led returns the warned outcome and no frame is sent for it. -/
theorem Finch.led_warned_no_send_witness :
    Finch.led [Finch.PyVal.str ['t', 'e', 'a', 'l']] = Finch.LedOutcome.warned
    ∧ Finch.led [Finch.PyVal.str ['t', 'e', 'a', 'l']] ≠ .sent [79, 0, 0, 0] := by
  have hw : Finch.LedWarnInput [Finch.PyVal.str ['t', 'e', 'a', 'l']] := by
    refine ⟨by decide, ?_, by decide, ?_⟩
    · intro a0 h
      cases h
      decide
    · intro s hs
      injection hs with h1 h2
      injection h1 with h3
      subst h3
      decide
  have h := Finch.led_warned_no_send _ hw
  exact ⟨h.1, h.2 [79, 0, 0, 0]⟩

/-- Counterexample for C8 as stated: at the malformed input "teal" the code
prints the usage message and returns None (source lines 49-51) - the warned
outcome - so the caller receives no explicit InvalidCommand error value and
no exception; the failure is only a printed message with a silent None
return. -/
theorem Finch.led_teal_counterexample :
    Finch.led [Finch.PyVal.str ['t', 'e', 'a', 'l']]
      = Finch.LedOutcome.warned := by decide
